import Mathlib

/-!
Shallow embedding of the accounting core of the `timelock-crate` streaming /
vesting program (`src/state.rs`), together with proofs about its schedule and
ledger arithmetic.  Machine integers (`u64`) are embedded as `ℕ` with explicit
`< 2 ^ 64` overflow checks inside the checked-arithmetic layer; fallible Rust
functions returning `Result` are embedded as `Except`.  Mutating methods on the
ledger (`deposit_gross`, `deposit_net`, `try_sync_balance`) are embedded as
state-passing functions whose error case also carries the (possibly partially
mutated) state, mirroring the sequential `try_add_assign` mutations of the
Rust code.
-/

deriving instance DecidableEq for Except

namespace Timelock

/-- Error values produced by the checked-arithmetic layer (`try_math`) and
propagated as `ProgramError` by the ledger methods. -/
inductive ArithError where
  | overflow
  | underflow
  | divByZero
  deriving DecidableEq

/-- One past the largest `u64` value: `2 ^ 64`. -/
def U64_MOD : ℕ := 18446744073709551616

/-- Modelled from the spec: the `try_math` checked `u64` addition
(`SafeArithmetic`), which fails with an explicit error on overflow instead of
wrapping.  The crate module `try_math` is not part of the sources here. -/
def try_add (a b : ℕ) : Except ArithError ℕ :=
  if a + b < U64_MOD then .ok (a + b) else .error .overflow

/-- Modelled from the spec: checked `u64` subtraction, failing on underflow. -/
def try_sub (a b : ℕ) : Except ArithError ℕ :=
  if b ≤ a then .ok (a - b) else .error .underflow

/-- Modelled from the spec: checked `u64` multiplication, failing on
overflow. -/
def try_mul (a b : ℕ) : Except ArithError ℕ :=
  if a * b < U64_MOD then .ok (a * b) else .error .overflow

/-- Modelled from the spec: checked `u64` division, failing on division by
zero. -/
def try_div (a b : ℕ) : Except ArithError ℕ :=
  if b = 0 then .error .divByZero else .ok (a / b)

/-- Modelled from the spec: `utils::calculate_fee_from_amount` computes
`floor(amount * percent / 100)`; `percent` is a small fraction such as `0.25`
meaning 0.25%.  The crate module `utils` is not part of the sources here; the
percentage is embedded as a rational number. -/
def calculate_fee_from_amount (amount : ℕ) (percent : ℚ) : ℕ :=
  (⌊(amount : ℚ) * percent / 100⌋).toNat

/-- Modelled from the spec: `utils::calculate_external_deposit` computes
`delta = observed_balance - (gross_recorded - total_withdrawn)`, returning `0`
when the observed balance is at most the expected one, and failing loudly
(checked subtraction) instead of underflowing when `total_withdrawn` exceeds
`gross_recorded`. -/
def calculate_external_deposit (balance gross_recorded total_withdrawn : ℕ) :
    Except ArithError ℕ :=
  match try_sub gross_recorded total_withdrawn with
  | .error e => .error e
  | .ok expected => if balance ≤ expected then .ok 0 else .ok (balance - expected)

/-- The stream creation parameters (`CreateParams` in `src/state.rs`).
`u64` fields are embedded as `ℕ`; the fixed 64-byte `stream_name` as a byte
list. -/
structure CreateParams where
  start_time : ℕ
  net_amount_deposited : ℕ
  period : ℕ
  amount_per_period : ℕ
  cliff : ℕ
  cliff_amount : ℕ
  cancelable_by_sender : Bool
  cancelable_by_recipient : Bool
  automatic_withdrawal : Bool
  transferable_by_sender : Bool
  transferable_by_recipient : Bool
  can_topup : Bool
  stream_name : List ℕ
  deriving DecidableEq

/-- The `let start = if self.cliff > 0 { self.cliff } else { self.start_time }`
computation shared by `calculate_end_time` and `stream_available`: the cliff
timestamp when non-zero, otherwise `start_time`. -/
def CreateParams.effective_start (p : CreateParams) : ℕ :=
  if p.cliff > 0 then p.cliff else p.start_time

/-- `CreateParams::calculate_end_time`: timestamp when the stream is
closable. -/
def CreateParams.calculate_end_time (p : CreateParams) : Except ArithError ℕ :=
  match try_div p.net_amount_deposited p.amount_per_period with
  | .error e => .error e
  | .ok periods_left =>
    match try_mul periods_left p.period with
    | .error e => .error e
    | .ok seconds_left => try_add p.effective_start seconds_left

/-- `CreateParams::stream_available`: the linearly vested amount at time
`now`. -/
def CreateParams.stream_available (p : CreateParams) (now : ℕ) :
    Except ArithError ℕ :=
  match try_sub now p.effective_start with
  | .error e => .error e
  | .ok since_start =>
    match try_div since_start p.period with
    | .error e => .error e
    | .ok periods_passed => try_mul periods_passed p.amount_per_period

/-- The per-stream ledger record (`Contract` in `src/state.rs`).  Public keys
are embedded as `ℕ`, fee percentages (`f32` holding small fractions such as
`0.25`) as `ℚ`. -/
structure Contract where
  magic : ℕ
  version : ℕ
  created_at : ℕ
  amount_withdrawn : ℕ
  canceled_at : ℕ
  end_time : ℕ
  last_withdrawn_at : ℕ
  sender : ℕ
  sender_tokens : ℕ
  recipient : ℕ
  recipient_tokens : ℕ
  mint : ℕ
  escrow_tokens : ℕ
  streamflow_treasury : ℕ
  streamflow_treasury_tokens : ℕ
  streamflow_fee_total : ℕ
  streamflow_fee_withdrawn : ℕ
  streamflow_fee_percent : ℚ
  partner : ℕ
  partner_tokens : ℕ
  partner_fee_total : ℕ
  partner_fee_withdrawn : ℕ
  partner_fee_percent : ℚ
  ix : CreateParams
  deriving DecidableEq

/-- `Contract::all_funds_withdrawn`. -/
def Contract.all_funds_withdrawn (c : Contract) : Bool :=
  c.amount_withdrawn == c.ix.net_amount_deposited

/-- `Contract::total_amount_withdrawn`: recipient withdrawals plus both fee
withdrawals, via checked additions. -/
def Contract.total_amount_withdrawn (c : Contract) : Except ArithError ℕ :=
  match try_add c.amount_withdrawn c.partner_fee_withdrawn with
  | .error e => .error e
  | .ok s => try_add s c.streamflow_fee_withdrawn

/-- `Contract::gross_amount`: net principal plus both fee totals, via checked
additions. -/
def Contract.gross_amount (c : Contract) : Except ArithError ℕ :=
  match try_add c.ix.net_amount_deposited c.streamflow_fee_total with
  | .error e => .error e
  | .ok s => try_add s c.partner_fee_total

/-- `Contract::deposit_gross`, with the sequential `try_add_assign` mutations
of `&mut self` embedded by threading the record: the error case carries the
state reached at the failing step. -/
def Contract.deposit_gross (c : Contract) (gross_amount : ℕ) :
    Except (ArithError × Contract) Contract :=
  match try_sub gross_amount (calculate_fee_from_amount gross_amount c.partner_fee_percent) with
  | .error e => .error (e, c)
  | .ok after_partner =>
    match try_sub after_partner (calculate_fee_from_amount gross_amount c.streamflow_fee_percent) with
    | .error e => .error (e, c)
    | .ok net_amount =>
      match try_add c.ix.net_amount_deposited net_amount with
      | .error e => .error (e, c)
      | .ok nd =>
        match try_add c.partner_fee_total (calculate_fee_from_amount gross_amount c.partner_fee_percent) with
        | .error e => .error (e, { c with ix := { c.ix with net_amount_deposited := nd } })
        | .ok pf =>
          match try_add c.streamflow_fee_total (calculate_fee_from_amount gross_amount c.streamflow_fee_percent) with
          | .error e => .error (e,
              { c with ix := { c.ix with net_amount_deposited := nd }
                       partner_fee_total := pf })
          | .ok sf =>
            match CreateParams.calculate_end_time { c.ix with net_amount_deposited := nd } with
            | .error e => .error (e,
                { c with ix := { c.ix with net_amount_deposited := nd }
                         partner_fee_total := pf
                         streamflow_fee_total := sf })
            | .ok et => .ok
                { c with ix := { c.ix with net_amount_deposited := nd }
                         partner_fee_total := pf
                         streamflow_fee_total := sf
                         end_time := et }

/-- `Contract::deposit_net`, embedded like `deposit_gross`. -/
def Contract.deposit_net (c : Contract) (net_amount : ℕ) :
    Except (ArithError × Contract) Contract :=
  match try_add c.ix.net_amount_deposited net_amount with
  | .error e => .error (e, c)
  | .ok nd =>
    match try_add c.partner_fee_total (calculate_fee_from_amount net_amount c.partner_fee_percent) with
    | .error e => .error (e, { c with ix := { c.ix with net_amount_deposited := nd } })
    | .ok pf =>
      match try_add c.streamflow_fee_total (calculate_fee_from_amount net_amount c.streamflow_fee_percent) with
      | .error e => .error (e,
          { c with ix := { c.ix with net_amount_deposited := nd }
                   partner_fee_total := pf })
      | .ok sf =>
        match CreateParams.calculate_end_time { c.ix with net_amount_deposited := nd } with
        | .error e => .error (e,
            { c with ix := { c.ix with net_amount_deposited := nd }
                     partner_fee_total := pf
                     streamflow_fee_total := sf })
        | .ok et => .ok
            { c with ix := { c.ix with net_amount_deposited := nd }
                     partner_fee_total := pf
                     streamflow_fee_total := sf
                     end_time := et }

/-- `Contract::try_sync_balance`: absorbs externally deposited tokens as a
gross deposit when top-ups are enabled. -/
def Contract.try_sync_balance (c : Contract) (balance : ℕ) :
    Except (ArithError × Contract) Contract :=
  if !c.ix.can_topup then .ok c
  else
    match c.gross_amount with
    | .error e => .error (e, c)
    | .ok g =>
      match c.total_amount_withdrawn with
      | .error e => .error (e, c)
      | .ok w =>
        match calculate_external_deposit balance g w with
        | .error e => .error (e, c)
        | .ok external_deposit =>
          if external_deposit > 0 then c.deposit_gross external_deposit else .ok c

/-- The ledger record after a mutating call, whether it succeeded or failed:
on failure the Rust method returns early out of `&mut self`, leaving the
record in the state reached at the failing step. -/
def resState (r : Except (ArithError × Contract) Contract) : Contract :=
  match r with
  | .ok c => c
  | .error (_, c) => c

/-- The ledger record left behind by a failing call, when the call failed. -/
def errState (r : Except (ArithError × Contract) Contract) : Option Contract :=
  match r with
  | .ok _ => none
  | .error (_, c) => some c

/-- `save_account_info` (`src/state.rs`): copies the serialized record into
the front of the destination buffer via
`data[0..bytes.len()].clone_from_slice(&bytes)`.  `bytes` stands for the
borsh-serialized record (`metadata.try_to_vec()`, an external-crate encoder);
`none` models the slice-index panic raised when the buffer is shorter than
the serialized record. -/
def save_account_info (bytes data : List ℕ) : Option (List ℕ) :=
  if bytes.length ≤ data.length then some (bytes ++ data.drop bytes.length)
  else none

/-- The fields of a ledger record that are set at creation and must never be
mutated afterwards: magic and version tag, creation time, the identities of
all parties and their token accounts, and both fee percentages. -/
structure IdentityFields where
  magic : ℕ
  version : ℕ
  created_at : ℕ
  sender : ℕ
  sender_tokens : ℕ
  recipient : ℕ
  recipient_tokens : ℕ
  mint : ℕ
  escrow_tokens : ℕ
  streamflow_treasury : ℕ
  streamflow_treasury_tokens : ℕ
  partner : ℕ
  partner_tokens : ℕ
  streamflow_fee_percent : ℚ
  partner_fee_percent : ℚ
  deriving DecidableEq

/-- Projection of a ledger record onto its creation-time identity fields. -/
def Contract.identity_fields (c : Contract) : IdentityFields :=
  { magic := c.magic
    version := c.version
    created_at := c.created_at
    sender := c.sender
    sender_tokens := c.sender_tokens
    recipient := c.recipient
    recipient_tokens := c.recipient_tokens
    mint := c.mint
    escrow_tokens := c.escrow_tokens
    streamflow_treasury := c.streamflow_treasury
    streamflow_treasury_tokens := c.streamflow_treasury_tokens
    partner := c.partner
    partner_tokens := c.partner_tokens
    streamflow_fee_percent := c.streamflow_fee_percent
    partner_fee_percent := c.partner_fee_percent }

/-- The mathematical value of `gross_amount`: net principal plus both fee
totals, as an unbounded natural number (no overflow check). -/
def Contract.gross_sum (c : Contract) : ℕ :=
  c.ix.net_amount_deposited + c.streamflow_fee_total + c.partner_fee_total

/-- A deposit operation on the ledger: either a net deposit or a gross
deposit. -/
inductive Op where
  | net (amount : ℕ)
  | gross (amount : ℕ)
  deriving DecidableEq

/-- Apply one deposit operation to a ledger record. -/
def applyOp (c : Contract) : Op → Except (ArithError × Contract) Contract
  | .net n => c.deposit_net n
  | .gross g => c.deposit_gross g

/-- Apply a sequence of deposit operations, stopping at the first failure. -/
def applyOps (c : Contract) : List Op → Except (ArithError × Contract) Contract
  | [] => .ok c
  | op :: ops =>
    match applyOp c op with
    | .error e => .error e
    | .ok c1 => applyOps c1 ops

/-- The gross value contributed to escrow by one deposit operation, for fee
percentages `pp` (partner) and `sp` (streamflow): a gross deposit contributes
its amount, a net deposit contributes its amount plus both fees computed on
top of it. -/
def Op.contribution (pp sp : ℚ) : Op → ℕ
  | .net n => n + calculate_fee_from_amount n pp + calculate_fee_from_amount n sp
  | .gross g => g

/-- Concrete schedule used in the worked examples: one unit released per
one-second period, starting at time 0, no cliff, top-ups enabled. -/
def exParams : CreateParams :=
  { start_time := 0
    net_amount_deposited := 0
    period := 1
    amount_per_period := 1
    cliff := 0
    cliff_amount := 0
    cancelable_by_sender := false
    cancelable_by_recipient := false
    automatic_withdrawal := false
    transferable_by_sender := false
    transferable_by_recipient := false
    can_topup := true
    stream_name := [] }

/-- Concrete ledger record used in the worked examples: fresh stream over
`exParams` with both fee percentages 0.25%. -/
def exContract : Contract :=
  { magic := 0
    version := 2
    created_at := 0
    amount_withdrawn := 0
    canceled_at := 0
    end_time := 0
    last_withdrawn_at := 0
    sender := 1
    sender_tokens := 2
    recipient := 3
    recipient_tokens := 4
    mint := 5
    escrow_tokens := 6
    streamflow_treasury := 7
    streamflow_treasury_tokens := 8
    streamflow_fee_total := 0
    streamflow_fee_withdrawn := 0
    streamflow_fee_percent := 1/4
    partner := 9
    partner_tokens := 10
    partner_fee_total := 0
    partner_fee_withdrawn := 0
    partner_fee_percent := 1/4
    ix := exParams }

/-- The record produced by `exContract.deposit_gross 1000`: fees of 2 each,
net 996, end time recomputed to 996. -/
def exD : Contract :=
  { exContract with
    end_time := 996
    streamflow_fee_total := 2
    partner_fee_total := 2
    ix := { exParams with net_amount_deposited := 996 } }

/-- A record one checked addition away from overflow on the partner fee
total. -/
def exC2state : Contract :=
  { exContract with partner_fee_total := U64_MOD - 1 }

/-- The partially mutated record left by the failing
`exC2state.deposit_gross 1000`. -/
def exC2broken : Contract :=
  { exC2state with ix := { exParams with net_amount_deposited := 996 } }

/-- Schedule starting at time 10, used to probe `stream_available` before the
start. -/
def exLateParams : CreateParams :=
  { exParams with start_time := 10 }

/-- Record with top-ups disabled, used for the `try_sync_balance` no-op
scenario. -/
def exNoTopup : Contract :=
  { exContract with ix := { exParams with can_topup := false } }

/-- The record produced by `deposit_gross 1000` then `deposit_net 400` from
`exContract`: net 1396, fee totals 3 each, end time 1396. -/
def exD6 : Contract :=
  { exContract with
    end_time := 1396
    streamflow_fee_total := 3
    partner_fee_total := 3
    ix := { exParams with net_amount_deposited := 1396 } }


theorem U64_MOD_eq : U64_MOD = 2 ^ 64 := by decide

theorem try_add_ok_iff {a b c : ℕ} :
    try_add a b = .ok c ↔ a + b < U64_MOD ∧ c = a + b := by
  unfold try_add
  split
  · simp_all [eq_comm]
  · simp_all

theorem try_add_err_iff {a b : ℕ} {e : ArithError} :
    try_add a b = .error e ↔ U64_MOD ≤ a + b ∧ e = .overflow := by
  unfold try_add
  split
  · simp_all
  · simp_all [eq_comm]

theorem try_sub_ok_iff {a b c : ℕ} :
    try_sub a b = .ok c ↔ b ≤ a ∧ c = a - b := by
  unfold try_sub
  split
  · simp_all [eq_comm]
  · simp_all

theorem try_sub_err_iff {a b : ℕ} {e : ArithError} :
    try_sub a b = .error e ↔ a < b ∧ e = .underflow := by
  unfold try_sub
  split
  · simp_all
  · simp_all [eq_comm]

theorem try_mul_ok_iff {a b c : ℕ} :
    try_mul a b = .ok c ↔ a * b < U64_MOD ∧ c = a * b := by
  unfold try_mul
  split
  · simp_all [eq_comm]
  · simp_all

theorem try_div_ok_iff {a b c : ℕ} :
    try_div a b = .ok c ↔ b ≠ 0 ∧ c = a / b := by
  unfold try_div
  split
  · simp_all
  · simp_all [eq_comm]

theorem try_div_err_iff {a b : ℕ} {e : ArithError} :
    try_div a b = .error e ↔ b = 0 ∧ e = .divByZero := by
  unfold try_div
  split
  · simp_all [eq_comm]
  · simp_all

theorem calculate_external_deposit_ok_iff {b g w d : ℕ} :
    calculate_external_deposit b g w = .ok d ↔ w ≤ g ∧ d = b - (g - w) := by
  unfold calculate_external_deposit
  split
  next e heq =>
    rw [try_sub_err_iff] at heq
    simp only [reduceCtorEq, false_iff]
    omega
  next expected heq =>
    rw [try_sub_ok_iff] at heq
    obtain ⟨hle, he⟩ := heq
    subst he
    split
    · simp only [Except.ok.injEq]
      omega
    · simp only [Except.ok.injEq]
      omega



theorem try_mul_err_iff {a b : ℕ} {e : ArithError} :
    try_mul a b = .error e ↔ U64_MOD ≤ a * b ∧ e = .overflow := by
  unfold try_mul
  split
  · simp_all
  · simp_all [eq_comm]

theorem gross_amount_ok_iff {c : Contract} {v : ℕ} :
    c.gross_amount = .ok v ↔
      c.ix.net_amount_deposited + c.streamflow_fee_total < U64_MOD ∧
      c.gross_sum < U64_MOD ∧ v = c.gross_sum := by
  unfold Contract.gross_amount Contract.gross_sum
  split
  next e heq =>
    rw [try_add_err_iff] at heq
    simp only [reduceCtorEq, false_iff]
    omega
  next s heq =>
    rw [try_add_ok_iff] at heq
    obtain ⟨hb, hs⟩ := heq
    subst hs
    rw [try_add_ok_iff]
    omega

theorem total_amount_withdrawn_ok_iff {c : Contract} {v : ℕ} :
    c.total_amount_withdrawn = .ok v ↔
      c.amount_withdrawn + c.partner_fee_withdrawn < U64_MOD ∧
      c.amount_withdrawn + c.partner_fee_withdrawn + c.streamflow_fee_withdrawn < U64_MOD ∧
      v = c.amount_withdrawn + c.partner_fee_withdrawn + c.streamflow_fee_withdrawn := by
  unfold Contract.total_amount_withdrawn
  split
  next e heq =>
    rw [try_add_err_iff] at heq
    simp only [reduceCtorEq, false_iff]
    omega
  next s heq =>
    rw [try_add_ok_iff] at heq
    obtain ⟨hb, hs⟩ := heq
    subst hs
    rw [try_add_ok_iff]
    omega

theorem calculate_end_time_ok_iff {p : CreateParams} {v : ℕ} :
    p.calculate_end_time = .ok v ↔
      p.amount_per_period ≠ 0 ∧
      p.net_amount_deposited / p.amount_per_period * p.period < U64_MOD ∧
      p.effective_start + p.net_amount_deposited / p.amount_per_period * p.period < U64_MOD ∧
      v = p.effective_start + p.net_amount_deposited / p.amount_per_period * p.period := by
  unfold CreateParams.calculate_end_time
  split
  next e heq =>
    rw [try_div_err_iff] at heq
    simp only [reduceCtorEq, false_iff]
    intro hc
    exact hc.1 heq.1
  next periods heq =>
    rw [try_div_ok_iff] at heq
    obtain ⟨hnz, hp⟩ := heq
    subst hp
    split
    next e heq2 =>
      rw [try_mul_err_iff] at heq2
      simp only [reduceCtorEq, false_iff]
      omega
    next secs heq2 =>
      rw [try_mul_ok_iff] at heq2
      obtain ⟨hb2, hs2⟩ := heq2
      subst hs2
      rw [try_add_ok_iff]
      constructor
      · intro ⟨h1, h2⟩
        exact ⟨hnz, hb2, by omega, by omega⟩
      · intro ⟨_, _, h3, h4⟩
        exact ⟨by omega, by omega⟩

theorem calculate_end_time_err_div {p : CreateParams}
    (h : p.amount_per_period = 0) :
    p.calculate_end_time = .error .divByZero := by
  unfold CreateParams.calculate_end_time
  have hd : try_div p.net_amount_deposited p.amount_per_period = .error .divByZero := by
    rw [try_div_err_iff]
    exact ⟨h, rfl⟩
  rw [hd]

theorem stream_available_ok_iff {p : CreateParams} {now v : ℕ} :
    p.stream_available now = .ok v ↔
      p.effective_start ≤ now ∧ p.period ≠ 0 ∧
      (now - p.effective_start) / p.period * p.amount_per_period < U64_MOD ∧
      v = (now - p.effective_start) / p.period * p.amount_per_period := by
  unfold CreateParams.stream_available
  split
  next e heq =>
    rw [try_sub_err_iff] at heq
    simp only [reduceCtorEq, false_iff]
    omega
  next since_start heq =>
    rw [try_sub_ok_iff] at heq
    obtain ⟨hle, hs⟩ := heq
    subst hs
    split
    next e heq2 =>
      rw [try_div_err_iff] at heq2
      simp only [reduceCtorEq, false_iff]
      intro hc
      exact hc.2.1 heq2.1
    next periods heq2 =>
      rw [try_div_ok_iff] at heq2
      obtain ⟨hnz, hp⟩ := heq2
      subst hp
      rw [try_mul_ok_iff]
      constructor
      · intro ⟨h1, h2⟩
        exact ⟨hle, hnz, h1, h2⟩
      · intro ⟨_, _, h3, h4⟩
        exact ⟨h3, h4⟩

theorem stream_available_err_before {p : CreateParams} {now : ℕ}
    (h : now < p.effective_start) :
    p.stream_available now = .error .underflow := by
  unfold CreateParams.stream_available
  have hs : try_sub now p.effective_start = .error .underflow := by
    rw [try_sub_err_iff]
    exact ⟨h, rfl⟩
  rw [hs]

theorem stream_available_err_period {p : CreateParams} {now : ℕ}
    (h1 : p.effective_start ≤ now) (h2 : p.period = 0) :
    p.stream_available now = .error .divByZero := by
  unfold CreateParams.stream_available
  have hs : try_sub now p.effective_start = .ok (now - p.effective_start) := by
    rw [try_sub_ok_iff]
    exact ⟨h1, rfl⟩
  rw [hs]
  have hd : try_div (now - p.effective_start) p.period = .error .divByZero := by
    rw [try_div_err_iff]
    exact ⟨h2, rfl⟩
  simp [hd]



theorem deposit_gross_ok {c : Contract} {g : ℕ} {c' : Contract}
    (h : c.deposit_gross g = .ok c') :
    c' = { c with
      end_time := c'.end_time
      partner_fee_total :=
        c.partner_fee_total + calculate_fee_from_amount g c.partner_fee_percent
      streamflow_fee_total :=
        c.streamflow_fee_total + calculate_fee_from_amount g c.streamflow_fee_percent
      ix := { c.ix with net_amount_deposited :=
        c.ix.net_amount_deposited +
          (g - calculate_fee_from_amount g c.partner_fee_percent
             - calculate_fee_from_amount g c.streamflow_fee_percent) } } ∧
    calculate_fee_from_amount g c.partner_fee_percent +
      calculate_fee_from_amount g c.streamflow_fee_percent ≤ g ∧
    CreateParams.calculate_end_time c'.ix = .ok c'.end_time := by
  unfold Contract.deposit_gross at h
  split at h
  next e heq1 => simp at h
  next after_partner heq1 =>
    split at h
    next e heq2 => simp at h
    next net_amount heq2 =>
      split at h
      next e heq3 => simp at h
      next nd heq3 =>
        split at h
        next e heq4 => simp at h
        next pf heq4 =>
          split at h
          next e heq5 => simp at h
          next sf heq5 =>
            split at h
            next e heq6 => simp at h
            next et heq6 =>
              rw [Except.ok.injEq] at h
              subst h
              rw [try_sub_ok_iff] at heq1 heq2
              rw [try_add_ok_iff] at heq3 heq4 heq5
              obtain ⟨hb1, he1⟩ := heq1
              obtain ⟨hb2, he2⟩ := heq2
              obtain ⟨hb3, he3⟩ := heq3
              obtain ⟨hb4, he4⟩ := heq4
              obtain ⟨hb5, he5⟩ := heq5
              subst he1
              subst he2
              subst he3
              subst he4
              subst he5
              exact ⟨rfl, by omega, heq6⟩

theorem deposit_net_ok {c : Contract} {n : ℕ} {c' : Contract}
    (h : c.deposit_net n = .ok c') :
    c' = { c with
      end_time := c'.end_time
      partner_fee_total :=
        c.partner_fee_total + calculate_fee_from_amount n c.partner_fee_percent
      streamflow_fee_total :=
        c.streamflow_fee_total + calculate_fee_from_amount n c.streamflow_fee_percent
      ix := { c.ix with net_amount_deposited := c.ix.net_amount_deposited + n } } ∧
    CreateParams.calculate_end_time c'.ix = .ok c'.end_time := by
  unfold Contract.deposit_net at h
  split at h
  next e heq1 => simp at h
  next nd heq1 =>
    split at h
    next e heq2 => simp at h
    next pf heq2 =>
      split at h
      next e heq3 => simp at h
      next sf heq3 =>
        split at h
        next e heq4 => simp at h
        next et heq4 =>
          rw [Except.ok.injEq] at h
          subst h
          rw [try_add_ok_iff] at heq1 heq2 heq3
          obtain ⟨hb1, he1⟩ := heq1
          obtain ⟨hb2, he2⟩ := heq2
          obtain ⟨hb3, he3⟩ := heq3
          subst he1
          subst he2
          subst he3
          exact ⟨rfl, heq4⟩

theorem deposit_gross_err {c : Contract} {g : ℕ} {e : ArithError} {ce : Contract}
    (h : c.deposit_gross g = .error (e, ce)) :
    ce = { c with
      partner_fee_total := ce.partner_fee_total
      streamflow_fee_total := ce.streamflow_fee_total
      ix := { c.ix with net_amount_deposited := ce.ix.net_amount_deposited } } := by
  unfold Contract.deposit_gross at h
  split at h
  next e1 heq1 =>
    rw [Except.error.injEq, Prod.mk.injEq] at h
    obtain ⟨-, hc⟩ := h
    subst hc
    rfl
  next after_partner heq1 =>
    split at h
    next e1 heq2 =>
      rw [Except.error.injEq, Prod.mk.injEq] at h
      obtain ⟨-, hc⟩ := h
      subst hc
      rfl
    next net_amount heq2 =>
      split at h
      next e1 heq3 =>
        rw [Except.error.injEq, Prod.mk.injEq] at h
        obtain ⟨-, hc⟩ := h
        subst hc
        rfl
      next nd heq3 =>
        split at h
        next e1 heq4 =>
          rw [Except.error.injEq, Prod.mk.injEq] at h
          obtain ⟨-, hc⟩ := h
          subst hc
          rfl
        next pf heq4 =>
          split at h
          next e1 heq5 =>
            rw [Except.error.injEq, Prod.mk.injEq] at h
            obtain ⟨-, hc⟩ := h
            subst hc
            rfl
          next sf heq5 =>
            split at h
            next e1 heq6 =>
              rw [Except.error.injEq, Prod.mk.injEq] at h
              obtain ⟨-, hc⟩ := h
              subst hc
              rfl
            next et heq6 => simp at h

theorem deposit_net_err {c : Contract} {n : ℕ} {e : ArithError} {ce : Contract}
    (h : c.deposit_net n = .error (e, ce)) :
    ce = { c with
      partner_fee_total := ce.partner_fee_total
      streamflow_fee_total := ce.streamflow_fee_total
      ix := { c.ix with net_amount_deposited := ce.ix.net_amount_deposited } } := by
  unfold Contract.deposit_net at h
  split at h
  next e1 heq1 =>
    rw [Except.error.injEq, Prod.mk.injEq] at h
    obtain ⟨-, hc⟩ := h
    subst hc
    rfl
  next nd heq1 =>
    split at h
    next e1 heq2 =>
      rw [Except.error.injEq, Prod.mk.injEq] at h
      obtain ⟨-, hc⟩ := h
      subst hc
      rfl
    next pf heq2 =>
      split at h
      next e1 heq3 =>
        rw [Except.error.injEq, Prod.mk.injEq] at h
        obtain ⟨-, hc⟩ := h
        subst hc
        rfl
      next sf heq3 =>
        split at h
        next e1 heq4 =>
          rw [Except.error.injEq, Prod.mk.injEq] at h
          obtain ⟨-, hc⟩ := h
          subst hc
          rfl
        next et heq4 => simp at h



theorem deposit_gross_frame (c : Contract) (g : ℕ) :
    (resState (c.deposit_gross g)).identity_fields = c.identity_fields := by
  cases h : c.deposit_gross g with
  | ok c' =>
    obtain ⟨hc, -, -⟩ := deposit_gross_ok h
    simp only [resState]
    rw [hc]
    rfl
  | error p =>
    obtain ⟨e, ce⟩ := p
    have hc := deposit_gross_err h
    simp only [resState]
    rw [hc]
    rfl

theorem deposit_net_frame (c : Contract) (n : ℕ) :
    (resState (c.deposit_net n)).identity_fields = c.identity_fields := by
  cases h : c.deposit_net n with
  | ok c' =>
    obtain ⟨hc, -⟩ := deposit_net_ok h
    simp only [resState]
    rw [hc]
    rfl
  | error p =>
    obtain ⟨e, ce⟩ := p
    have hc := deposit_net_err h
    simp only [resState]
    rw [hc]
    rfl

theorem try_sync_balance_frame (c : Contract) (b : ℕ) :
    (resState (c.try_sync_balance b)).identity_fields = c.identity_fields := by
  unfold Contract.try_sync_balance
  split
  · rfl
  · split
    next e heq => rfl
    next g hg =>
      split
      next e heq => rfl
      next w hw =>
        split
        next e heq => rfl
        next ed hed =>
          split
          · exact deposit_gross_frame c ed
          · rfl

theorem deposit_gross_sum {c : Contract} {g : ℕ} {c' : Contract}
    (h : c.deposit_gross g = .ok c') :
    c'.gross_sum = c.gross_sum + g := by
  obtain ⟨hc, hb, -⟩ := deposit_gross_ok h
  rw [hc]
  unfold Contract.gross_sum
  dsimp only
  omega

theorem deposit_net_sum {c : Contract} {n : ℕ} {c' : Contract}
    (h : c.deposit_net n = .ok c') :
    c'.gross_sum = c.gross_sum +
      (n + calculate_fee_from_amount n c.partner_fee_percent +
         calculate_fee_from_amount n c.streamflow_fee_percent) := by
  obtain ⟨hc, -⟩ := deposit_net_ok h
  rw [hc]
  unfold Contract.gross_sum
  dsimp only
  omega



theorem applyOp_percents {c c' : Contract} {op : Op} (h : applyOp c op = .ok c') :
    c'.partner_fee_percent = c.partner_fee_percent ∧
    c'.streamflow_fee_percent = c.streamflow_fee_percent := by
  cases op with
  | net n =>
    obtain ⟨hc, -⟩ := deposit_net_ok h
    rw [hc]
    exact ⟨rfl, rfl⟩
  | gross g =>
    obtain ⟨hc, -, -⟩ := deposit_gross_ok h
    rw [hc]
    exact ⟨rfl, rfl⟩

theorem applyOp_sum {c c' : Contract} {op : Op} (h : applyOp c op = .ok c') :
    c'.gross_sum = c.gross_sum +
      op.contribution c.partner_fee_percent c.streamflow_fee_percent := by
  cases op with
  | net n =>
    simp only [Op.contribution]
    exact deposit_net_sum h
  | gross g =>
    simp only [Op.contribution]
    exact deposit_gross_sum h

theorem applyOps_sum : ∀ (ops : List Op) (c c' : Contract),
    applyOps c ops = .ok c' →
    c'.gross_sum = c.gross_sum +
      (ops.map (Op.contribution c.partner_fee_percent c.streamflow_fee_percent)).sum ∧
    c'.partner_fee_percent = c.partner_fee_percent ∧
    c'.streamflow_fee_percent = c.streamflow_fee_percent := by
  intro ops
  induction ops with
  | nil =>
    intro c c' h
    unfold applyOps at h
    rw [Except.ok.injEq] at h
    subst h
    simp
  | cons op rest ih =>
    intro c c' h
    unfold applyOps at h
    split at h
    next e heq => simp at h
    next c1 heq =>
      obtain ⟨hsum, hpp, hsp⟩ := ih c1 c' h
      obtain ⟨hp1, hp2⟩ := applyOp_percents heq
      have hs1 := applyOp_sum heq
      refine ⟨?_, by rw [hpp, hp1], by rw [hsp, hp2]⟩
      rw [List.map_cons, List.sum_cons, hsum, hs1, hp1, hp2]
      omega

theorem try_sync_balance_err {c : Contract} {b : ℕ} {e : ArithError} {ce : Contract}
    (h : c.try_sync_balance b = .error (e, ce)) :
    ce = { c with
      partner_fee_total := ce.partner_fee_total
      streamflow_fee_total := ce.streamflow_fee_total
      ix := { c.ix with net_amount_deposited := ce.ix.net_amount_deposited } } := by
  unfold Contract.try_sync_balance at h
  split at h
  · simp at h
  · split at h
    next e1 heq =>
      rw [Except.error.injEq, Prod.mk.injEq] at h
      obtain ⟨-, hc⟩ := h
      subst hc
      rfl
    next g hg =>
      split at h
      next e1 heq =>
        rw [Except.error.injEq, Prod.mk.injEq] at h
        obtain ⟨-, hc⟩ := h
        subst hc
        rfl
      next w hw =>
        split at h
        next e1 heq =>
          rw [Except.error.injEq, Prod.mk.injEq] at h
          obtain ⟨-, hc⟩ := h
          subst hc
          rfl
        next ed hed =>
          split at h
          · exact deposit_gross_err h
          · simp at h

theorem fee_quarter (a : ℕ) : calculate_fee_from_amount a (1/4) = a / 400 := by
  unfold calculate_fee_from_amount
  have h : (a : ℚ) * (1/4) / 100 = ((a : ℕ) : ℚ) / ((400 : ℕ) : ℚ) := by
    push_cast
    ring
  rw [h, Rat.floor_natCast_div_natCast, ← Int.ofNat_ediv, Int.toNat_natCast]

theorem exD_eval : exContract.deposit_gross 1000 = .ok exD := by
  have hq : exContract.partner_fee_percent = 1/4 := rfl
  have hq2 : exContract.streamflow_fee_percent = 1/4 := rfl
  unfold Contract.deposit_gross
  rw [hq, hq2, fee_quarter]
  norm_num [try_sub, try_add, try_div, try_mul, U64_MOD, CreateParams.calculate_end_time,
    CreateParams.effective_start, exContract, exParams, exD]



theorem exC2_eval :
    exC2state.deposit_gross 1000 = .error (.overflow, exC2broken) := by
  have hq : exC2state.partner_fee_percent = 1/4 := rfl
  have hq2 : exC2state.streamflow_fee_percent = 1/4 := rfl
  unfold Contract.deposit_gross
  rw [hq, hq2, fee_quarter]
  norm_num [try_sub, try_add, U64_MOD, exC2state, exContract, exParams, exC2broken]

theorem exSync_eval : exContract.try_sync_balance 1000 = .ok exD := by
  have ht : (!exContract.ix.can_topup) = false := rfl
  have hg : exContract.gross_amount = .ok 0 := by
    norm_num [Contract.gross_amount, try_add, U64_MOD, exContract, exParams]
  have hw : exContract.total_amount_withdrawn = .ok 0 := by
    norm_num [Contract.total_amount_withdrawn, try_add, U64_MOD, exContract, exParams]
  have he : calculate_external_deposit 1000 0 0 = .ok 1000 := by
    norm_num [calculate_external_deposit, try_sub]
  simp only [Contract.try_sync_balance, ht, Bool.false_eq_true, if_false, hg, hw, he]
  norm_num
  exact exD_eval



/-- Claim C1 (corrected): `deposit_gross(1000)` with both fee percentages
0.25 increases each fee total by 2 but increases `net_amount_deposited` by
996, not by 995 as claimed: `1000 - 2 - 2 = 996`. -/
theorem C1_counterexample :
    exContract.deposit_gross 1000 = .ok exD ∧
    exContract.ix.net_amount_deposited = 0 ∧
    exD.ix.net_amount_deposited = 996 ∧
    exD.partner_fee_total = 2 ∧
    exD.streamflow_fee_total = 2 ∧
    (996 : ℕ) ≠ 995 :=
  ⟨exD_eval, rfl, rfl, rfl, rfl, by decide⟩

/-- Claim C1 (amended): a successful `deposit_gross(gross_amount)` computes
each fee as `floor(gross_amount * percent / 100)`, adds
`net = gross_amount - partner_fee - streamflow_fee` to
`net_amount_deposited`, adds each fee to its running total, and recomputes
`end_time`; in particular `deposit_gross(1000)` with both percentages 0.25
adds 2 to each fee total and 996 (not 995) to `net_amount_deposited`. -/
theorem C1_deposit_gross_fees (c : Contract) (g : ℕ) (c' : Contract)
    (h : c.deposit_gross g = .ok c') :
    c'.partner_fee_total =
      c.partner_fee_total + calculate_fee_from_amount g c.partner_fee_percent ∧
    c'.streamflow_fee_total =
      c.streamflow_fee_total + calculate_fee_from_amount g c.streamflow_fee_percent ∧
    c'.ix.net_amount_deposited = c.ix.net_amount_deposited +
      (g - calculate_fee_from_amount g c.partner_fee_percent
         - calculate_fee_from_amount g c.streamflow_fee_percent) ∧
    calculate_fee_from_amount g c.partner_fee_percent =
      (⌊(g : ℚ) * c.partner_fee_percent / 100⌋).toNat ∧
    calculate_fee_from_amount g c.streamflow_fee_percent =
      (⌊(g : ℚ) * c.streamflow_fee_percent / 100⌋).toNat ∧
    CreateParams.calculate_end_time c'.ix = .ok c'.end_time := by
  obtain ⟨hc, hb, het⟩ := deposit_gross_ok h
  refine ⟨?_, ?_, ?_, rfl, rfl, het⟩
  · rw [hc]
  · rw [hc]
  · rw [hc]

/-- Claim C1 witness: the amended theorem evaluated at the concrete scenario
`deposit_gross(1000)` on a fresh contract with 0.25% fees. -/
theorem C1_witness :
    exD.partner_fee_total =
      exContract.partner_fee_total +
        calculate_fee_from_amount 1000 exContract.partner_fee_percent ∧
    exD.streamflow_fee_total =
      exContract.streamflow_fee_total +
        calculate_fee_from_amount 1000 exContract.streamflow_fee_percent ∧
    exD.ix.net_amount_deposited = exContract.ix.net_amount_deposited +
      (1000 - calculate_fee_from_amount 1000 exContract.partner_fee_percent
            - calculate_fee_from_amount 1000 exContract.streamflow_fee_percent) ∧
    calculate_fee_from_amount 1000 exContract.partner_fee_percent =
      (⌊(1000 : ℚ) * exContract.partner_fee_percent / 100⌋).toNat ∧
    calculate_fee_from_amount 1000 exContract.streamflow_fee_percent =
      (⌊(1000 : ℚ) * exContract.streamflow_fee_percent / 100⌋).toNat ∧
    CreateParams.calculate_end_time exD.ix = .ok exD.end_time :=
  C1_deposit_gross_fees exContract 1000 exD exD_eval


/-- Claim C2 (counterexample): a failing `deposit_gross` can leave the record
partially mutated.  With `partner_fee_total` one below the `u64` maximum, the
fee addition overflows after `net_amount_deposited` has already been
increased to 996, so the record returned with the error differs from the
pre-call record. -/
theorem C2_counterexample :
    exC2state.deposit_gross 1000 = .error (.overflow, exC2broken) ∧
    exC2state.ix.net_amount_deposited = 0 ∧
    exC2broken.ix.net_amount_deposited = 996 :=
  ⟨exC2_eval, rfl, rfl⟩

/-- Claim C2 (amended): when `deposit_gross`, `deposit_net` or
`try_sync_balance` returns an error, every field of the returned record other
than `net_amount_deposited`, `partner_fee_total` and `streamflow_fee_total`
equals its pre-call value (in particular `end_time` and all identity fields);
those three running totals may have been partially updated, because mutation
stops at the first failing checked operation.  Full atomicity is the
caller's transaction abort, not the method's. -/
theorem C2_error_frame (c : Contract) (x : ℕ) (e : ArithError)
    (ce : Contract)
    (h : c.deposit_gross x = .error (e, ce) ∨ c.deposit_net x = .error (e, ce) ∨
         c.try_sync_balance x = .error (e, ce)) :
    ce = { c with
      partner_fee_total := ce.partner_fee_total
      streamflow_fee_total := ce.streamflow_fee_total
      ix := { c.ix with net_amount_deposited := ce.ix.net_amount_deposited } } := by
  rcases h with h | h | h
  · exact deposit_gross_err h
  · exact deposit_net_err h
  · exact try_sync_balance_err h

/-- Claim C2 witness: the amended frame theorem evaluated at the concrete
overflowing `deposit_gross(1000)`. -/
theorem C2_witness :
    exC2broken = { exC2state with
      partner_fee_total := exC2broken.partner_fee_total
      streamflow_fee_total := exC2broken.streamflow_fee_total
      ix := { exC2state.ix with
        net_amount_deposited := exC2broken.ix.net_amount_deposited } } :=
  C2_error_frame exC2state 1000 .overflow exC2broken (Or.inl exC2_eval)

/-- Claim C3 (counterexample): for `now` strictly before the effective start,
`stream_available` does not return 0: it fails with an underflow error.
Here the schedule starts at 10 and `now = 5`. -/
theorem C3_counterexample :
    exLateParams.stream_available 5 = .error .underflow ∧
    exLateParams.stream_available 5 ≠ .ok 0 := by
  have h : exLateParams.stream_available 5 = .error .underflow :=
    stream_available_err_before (by decide)
  exact ⟨h, by rw [h]; decide⟩

/-- Claim C3 (amended): `stream_available` is non-decreasing in `now`
wherever it succeeds, returns 0 exactly at the effective start (cliff if
non-zero, else `start_time`) when the period is non-zero, and fails with an
underflow error — rather than returning 0 — for `now` strictly before the
effective start. -/
theorem C3_stream_available_monotone :
    (∀ (p : CreateParams) (n1 n2 v1 v2 : ℕ), n1 ≤ n2 →
       p.stream_available n1 = .ok v1 → p.stream_available n2 = .ok v2 →
       v1 ≤ v2) ∧
    (∀ p : CreateParams, p.period ≠ 0 →
       p.stream_available p.effective_start = .ok 0) ∧
    (∀ (p : CreateParams) (now : ℕ), now < p.effective_start →
       p.stream_available now = .error .underflow) := by
  refine ⟨?_, ?_, ?_⟩
  · intro p n1 n2 v1 v2 hle h1 h2
    rw [stream_available_ok_iff] at h1 h2
    obtain ⟨-, -, -, hv1⟩ := h1
    obtain ⟨-, -, -, hv2⟩ := h2
    subst hv1
    subst hv2
    exact Nat.mul_le_mul_right _
      (Nat.div_le_div_right (Nat.sub_le_sub_right hle _))
  · intro p hp
    rw [stream_available_ok_iff]
    refine ⟨le_refl _, hp, ?_, ?_⟩
    · simp [U64_MOD]
    · simp
  · intro p now h
    exact stream_available_err_before h

/-- Claim C3 witness: the amended theorem evaluated on concrete schedules:
monotone between `now = 3` and `now = 7`, zero at the effective start, and
an underflow error before the start. -/
theorem C3_witness :
    (3 : ℕ) ≤ 7 ∧
    exParams.stream_available exParams.effective_start = .ok 0 ∧
    exLateParams.stream_available 7 = .error .underflow :=
  ⟨C3_stream_available_monotone.1 exParams 3 7 3 7 (by decide) (by decide) (by decide),
   C3_stream_available_monotone.2.1 exParams (by decide),
   C3_stream_available_monotone.2.2 exLateParams 7 (by decide)⟩


/-- Claim C4 (confirmed): `try_sync_balance` is idempotent.  If
`try_sync_balance balance` succeeds, running it again with the same observed
balance leaves the record unchanged — the second call either succeeds with
the identical record or fails before mutating anything — and whenever the
second call computes an external deposit it computes 0. -/
theorem C4_try_sync_balance_idempotent (c : Contract) (b : ℕ) (c1 : Contract)
    (h : c.try_sync_balance b = .ok c1) :
    resState (c1.try_sync_balance b) = c1 ∧
    (c1.ix.can_topup = true →
      ∀ g w, c1.gross_amount = .ok g → c1.total_amount_withdrawn = .ok w →
        calculate_external_deposit b g w = .ok 0) := by
  unfold Contract.try_sync_balance at h
  split at h
  next htop =>
    rw [Except.ok.injEq] at h
    subst h
    constructor
    · unfold Contract.try_sync_balance
      rw [if_pos htop]
      rfl
    · intro ht
      rw [ht] at htop
      simp at htop
  next htop =>
    simp at htop
    split at h
    next e heq => simp at h
    next g hg =>
      split at h
      next e heq => simp at h
      next w hw =>
        split at h
        next e heq => simp at h
        next ed hed =>
          split at h
          next hpos =>
            obtain ⟨hc1, hbound, -⟩ := deposit_gross_ok h
            rw [gross_amount_ok_iff] at hg
            obtain ⟨hg1, hg2, hgv⟩ := hg
            unfold Contract.gross_sum at hgv
            rw [calculate_external_deposit_ok_iff] at hed
            obtain ⟨hwg, hedv⟩ := hed
            have hsum : c1.gross_sum = b + w := by
              rw [hc1]
              unfold Contract.gross_sum
              dsimp only
              omega
            have hwv : c1.total_amount_withdrawn = c.total_amount_withdrawn := by
              rw [hc1]
              rfl
            have hct : c1.ix.can_topup = true := by
              rw [hc1]
              exact htop
            constructor
            · cases hg1c : c1.gross_amount with
              | error e =>
                unfold Contract.try_sync_balance
                simp [hct, hg1c, resState]
              | ok g1 =>
                have hg1v : g1 = b + w := by
                  rw [gross_amount_ok_iff] at hg1c
                  omega
                have hw1 : c1.total_amount_withdrawn = .ok w := by
                  rw [hwv]
                  exact hw
                have hed1 : calculate_external_deposit b g1 w = .ok 0 := by
                  rw [calculate_external_deposit_ok_iff]
                  omega
                unfold Contract.try_sync_balance
                simp [hct, hg1c, hw1, hed1, resState]
            · intro ht g' w' hg' hw'
              have hg'v : g' = b + w := by
                rw [gross_amount_ok_iff] at hg'
                omega
              rw [hwv, hw, Except.ok.injEq] at hw'
              rw [calculate_external_deposit_ok_iff]
              omega
          next hpos =>
            rw [Except.ok.injEq] at h
            subst h
            have hed0 : ed = 0 := by omega
            subst hed0
            constructor
            · unfold Contract.try_sync_balance
              simp [htop, hg, hw, hed, resState]
            · intro ht g' w' hg' hw'
              rw [hg, Except.ok.injEq] at hg'
              rw [hw, Except.ok.injEq] at hw'
              rw [← hg', ← hw']
              exact hed

/-- Claim C4 witness: idempotence evaluated at the concrete successful sync
`exContract.try_sync_balance 1000 = .ok exD`. -/
theorem C4_witness :
    resState (exD.try_sync_balance 1000) = exD ∧
    (exD.ix.can_topup = true →
      ∀ g w, exD.gross_amount = .ok g → exD.total_amount_withdrawn = .ok w →
        calculate_external_deposit 1000 g w = .ok 0) :=
  C4_try_sync_balance_idempotent exContract 1000 exD exSync_eval


theorem exDnet_eval : exD.deposit_net 400 = .ok exD6 := by
  have hq : exD.partner_fee_percent = 1/4 := rfl
  have hq2 : exD.streamflow_fee_percent = 1/4 := rfl
  unfold Contract.deposit_net
  rw [hq, hq2, fee_quarter]
  norm_num [try_add, try_div, try_mul, U64_MOD, CreateParams.calculate_end_time,
    CreateParams.effective_start, exD, exD6, exContract, exParams]

theorem exD6_eval : applyOps exContract [Op.gross 1000, Op.net 400] = .ok exD6 := by
  simp only [applyOps, applyOp, exD_eval, exDnet_eval]

theorem exD6_gross_eval : exD6.gross_amount = .ok 1402 := by
  norm_num [Contract.gross_amount, try_add, U64_MOD, exD6, exContract, exParams]


/-- Claim C5 (confirmed): `calculate_end_time` returns
`start + floor(net_amount_deposited / amount_per_period) * period` with
`start` the cliff when non-zero and `start_time` otherwise (under the
checked-arithmetic no-overflow side conditions); with
`net_amount_deposited = 2_000_000_000`, `amount_per_period = 100_000`,
`period = 1`, `cliff = 0` it returns `start_time + 20_000`; and it fails
with a division-by-zero error whenever `amount_per_period = 0`. -/
theorem C5_calculate_end_time_spec :
    (∀ p : CreateParams, p.amount_per_period ≠ 0 →
       p.net_amount_deposited / p.amount_per_period * p.period < U64_MOD →
       p.effective_start +
         p.net_amount_deposited / p.amount_per_period * p.period < U64_MOD →
       p.calculate_end_time = .ok (p.effective_start +
         p.net_amount_deposited / p.amount_per_period * p.period)) ∧
    (∀ p : CreateParams, p.amount_per_period = 0 →
       p.calculate_end_time = .error .divByZero) ∧
    (∀ p : CreateParams, p.net_amount_deposited = 2000000000 →
       p.amount_per_period = 100000 → p.period = 1 → p.cliff = 0 →
       p.start_time + 20000 < U64_MOD →
       p.calculate_end_time = .ok (p.start_time + 20000)) := by
  refine ⟨?_, ?_, ?_⟩
  · intro p h1 h2 h3
    rw [calculate_end_time_ok_iff]
    exact ⟨h1, h2, h3, rfl⟩
  · intro p h
    exact calculate_end_time_err_div h
  · intro p h1 h2 h3 h4 h5
    rw [calculate_end_time_ok_iff]
    unfold CreateParams.effective_start
    rw [h1, h2, h3, h4]
    norm_num
    omega

/-- Claim C5 witness: end-time computation evaluated on the concrete
Scenario A schedule and a zero `amount_per_period` schedule. -/
theorem C5_witness :
    CreateParams.calculate_end_time
        { exParams with net_amount_deposited := 2000000000
                        amount_per_period := 100000 } =
      .ok ({ exParams with net_amount_deposited := 2000000000
                           amount_per_period := 100000 }.start_time + 20000) ∧
    CreateParams.calculate_end_time { exParams with amount_per_period := 0 } =
      .error .divByZero :=
  ⟨C5_calculate_end_time_spec.2.2
     { exParams with net_amount_deposited := 2000000000
                     amount_per_period := 100000 }
     rfl rfl rfl rfl (by decide),
   C5_calculate_end_time_spec.2.1 { exParams with amount_per_period := 0 } rfl⟩

/-- Claim C6 (confirmed): conservation.  Along any successful sequence of
`deposit_net` / `deposit_gross` calls the quantity
`net_amount_deposited + streamflow_fee_total + partner_fee_total` grows by
exactly the sum of the gross contributions — `g` for `deposit_gross(g)` and
`n` plus both fees for `deposit_net(n)` — and `gross_amount()`, whenever it
returns, returns exactly that quantity. -/
theorem C6_conservation :
    (∀ (c : Contract) (ops : List Op) (c' : Contract),
       applyOps c ops = .ok c' →
       c'.gross_sum = c.gross_sum + (ops.map
         (Op.contribution c.partner_fee_percent c.streamflow_fee_percent)).sum) ∧
    (∀ (c : Contract) (v : ℕ), c.gross_amount = .ok v → v = c.gross_sum) ∧
    (∀ (c : Contract) (g : ℕ) (c' : Contract), c.deposit_gross g = .ok c' →
       c'.gross_sum = c.gross_sum + g) ∧
    (∀ (c : Contract) (n : ℕ) (c' : Contract), c.deposit_net n = .ok c' →
       c'.gross_sum = c.gross_sum +
         (n + calculate_fee_from_amount n c.partner_fee_percent +
            calculate_fee_from_amount n c.streamflow_fee_percent)) := by
  refine ⟨?_, ?_, ?_, ?_⟩
  · intro c ops c' h
    exact (applyOps_sum ops c c' h).1
  · intro c v h
    rw [gross_amount_ok_iff] at h
    exact h.2.2
  · intro c g c' h
    exact deposit_gross_sum h
  · intro c n c' h
    exact deposit_net_sum h

/-- Claim C6 witness: conservation evaluated on the concrete two-operation
sequence `deposit_gross 1000; deposit_net 400` from a fresh contract. -/
theorem C6_witness :
    exD6.gross_sum = exContract.gross_sum + ([Op.gross 1000, Op.net 400].map
      (Op.contribution exContract.partner_fee_percent
        exContract.streamflow_fee_percent)).sum ∧
    (1402 : ℕ) = exD6.gross_sum :=
  ⟨C6_conservation.1 exContract [Op.gross 1000, Op.net 400] exD6 exD6_eval,
   C6_conservation.2.1 exD6 1402 exD6_gross_eval⟩


/-- Claim C7 (confirmed): `stream_available(now)` returns
`floor((now - start) / period) * amount_per_period` with `start` the cliff
when non-zero and `start_time` otherwise (under the no-overflow side
condition); it fails with an underflow error when `now < start` and a
division-by-zero error when `period = 0`; and the result never involves
`cliff_amount` — changing `cliff_amount` does not change the result. -/
theorem C7_stream_available_spec :
    (∀ (p : CreateParams) (now : ℕ), p.effective_start ≤ now → p.period ≠ 0 →
       (now - p.effective_start) / p.period * p.amount_per_period < U64_MOD →
       p.stream_available now =
         .ok ((now - p.effective_start) / p.period * p.amount_per_period)) ∧
    (∀ (p : CreateParams) (now : ℕ), now < p.effective_start →
       p.stream_available now = .error .underflow) ∧
    (∀ (p : CreateParams) (now : ℕ), p.effective_start ≤ now → p.period = 0 →
       p.stream_available now = .error .divByZero) ∧
    (∀ (p : CreateParams) (now ca : ℕ),
       CreateParams.stream_available { p with cliff_amount := ca } now =
         p.stream_available now) := by
  refine ⟨?_, ?_, ?_, ?_⟩
  · intro p now h1 h2 h3
    rw [stream_available_ok_iff]
    exact ⟨h1, h2, h3, rfl⟩
  · intro p now h
    exact stream_available_err_before h
  · intro p now h1 h2
    exact stream_available_err_period h1 h2
  · intro p now ca
    rfl

/-- Claim C7 witness: `stream_available` evaluated on a concrete schedule
starting at 10: the vested amount at 22, the underflow error at 4, the
division-by-zero error with a zero period, and insensitivity to
`cliff_amount`. -/
theorem C7_witness :
    exLateParams.stream_available 22 =
      .ok ((22 - exLateParams.effective_start) / exLateParams.period *
        exLateParams.amount_per_period) ∧
    exLateParams.stream_available 4 = .error .underflow ∧
    CreateParams.stream_available { exParams with period := 0 } 5 =
      .error .divByZero ∧
    CreateParams.stream_available { exLateParams with cliff_amount := 77 } 22 =
      exLateParams.stream_available 22 :=
  ⟨C7_stream_available_spec.1 exLateParams 22 (by decide) (by decide) (by decide),
   C7_stream_available_spec.2.1 exLateParams 4 (by decide),
   C7_stream_available_spec.2.2.1 { exParams with period := 0 } 5 (by decide) rfl,
   C7_stream_available_spec.2.2.2 exLateParams 22 77⟩

/-- Claim C8 (confirmed): when top-ups are disabled, `try_sync_balance`
succeeds and returns the record unchanged, for every record and every
observed balance. -/
theorem C8_sync_no_topup (c : Contract) (balance : ℕ)
    (h : c.ix.can_topup = false) :
    c.try_sync_balance balance = .ok c := by
  unfold Contract.try_sync_balance
  rw [h]
  rfl

/-- Claim C8 witness: the no-op sync evaluated on a concrete record with
`can_topup = false` and an arbitrary balance of 999999. -/
theorem C8_witness : exNoTopup.try_sync_balance 999999 = .ok exNoTopup :=
  C8_sync_no_topup exNoTopup 999999 rfl

/-- Claim C9 (confirmed): the magic and version tags, all identity fields,
both fee percentages and the creation timestamp are unchanged by
`deposit_net`, `deposit_gross` and `try_sync_balance`, whether the call
succeeds or fails (the failing call's record is the one it leaves behind). -/
theorem C9_creation_fields_immutable (c : Contract) (amount balance : ℕ) :
    (resState (c.deposit_net amount)).identity_fields = c.identity_fields ∧
    (resState (c.deposit_gross amount)).identity_fields = c.identity_fields ∧
    (resState (c.try_sync_balance balance)).identity_fields = c.identity_fields :=
  ⟨deposit_net_frame c amount, deposit_gross_frame c amount,
   try_sync_balance_frame c balance⟩

/-- Claim C10 (confirmed): `save_account_info` writes the serialized bytes
over the front of the destination buffer, leaves the trailing bytes
unchanged, and when the buffer is shorter than the serialized record it
panics (modelled as `none`) instead of returning a typed error. -/
theorem C10_save_account_info_spec (bytes data : List ℕ) :
    (bytes.length ≤ data.length →
       save_account_info bytes data = some (bytes ++ data.drop bytes.length) ∧
       ∀ out, save_account_info bytes data = some out →
         out.take bytes.length = bytes ∧
         out.drop bytes.length = data.drop bytes.length) ∧
    (data.length < bytes.length → save_account_info bytes data = none) := by
  constructor
  · intro h
    constructor
    · unfold save_account_info
      rw [if_pos h]
    · intro out hout
      unfold save_account_info at hout
      rw [if_pos h, Option.some.injEq] at hout
      subst hout
      constructor
      · exact List.take_left bytes _
      · exact List.drop_left bytes _
  · intro h
    unfold save_account_info
    rw [if_neg (by omega)]

/-- Claim C10 witness: the buffer copy evaluated on concrete byte lists: a
2-byte record into a 3-byte buffer preserves the trailing byte, and a 4-byte
record into a 1-byte buffer panics. -/
theorem C10_witness :
    save_account_info [1, 2] [8, 8, 9] = some ([1, 2] ++ [8, 8, 9].drop 2) ∧
    save_account_info [1, 2, 3, 4] [8] = none :=
  ⟨((C10_save_account_info_spec [1, 2] [8, 8, 9]).1 (by decide)).1,
   (C10_save_account_info_spec [1, 2, 3, 4] [8]).2 (by decide)⟩

end Timelock
